import Mathlib

/-!
Verification of the `authtls` annotation parser
(`internal/ingress/annotations/authtls/main.go`).

The parser extracts mutual-TLS client-authentication settings from an
ingress rule's annotation bag, applies regex-based validation with
per-field defaults, enforces one cross-field check, and resolves the
certificate secret through an external resolver.

External collaborators (`parser.GetStringAnnotation`,
`parser.GetIntAnnotation`, `parser.GetBoolAnnotation`, `k8s.ParseNameNS`,
`resolver.GetAuthCertificate`) are modelled as an environment of
`Option`/`Except`-valued functions over which theorems quantify.

Go's `regexp.MatchString` is unanchored: a pattern that is a plain
alternation of literals matches iff some alternative occurs as a
substring; `^`-anchored patterns match iff some alternative is a prefix.
The regexes of the source are embedded with exactly those semantics.
-/

namespace IngressAuthTLS

/-- Bool test: the first character list is a prefix of the second. -/
def listStarts : List Char → List Char → Bool
  | [], _ => true
  | _ :: _, [] => false
  | a :: pa, b :: pb => a == b && listStarts pa pb

/-- Bool test: the first character list occurs as a contiguous substring
of the second (semantics of an unanchored regex literal). -/
def listHas (pat : List Char) : List Char → Bool
  | [] => listStarts pat []
  | b :: bs => listStarts pat (b :: bs) || listHas pat bs

/-- ASCII lower-casing of one character. -/
def toLowerAscii (c : Char) : Char :=
  if 65 ≤ c.toNat ∧ c.toNat ≤ 90 then Char.ofNat (c.toNat + 32) else c

/-- Models `strings.EqualFold` from the Go standard library, restricted to
ASCII case folding (exact for the ASCII-only literals compared here). -/
def equalFold (a b : String) : Bool :=
  a.data.map toLowerAscii == b.data.map toLowerAscii

/-- `authVerifyClientRegex = regexp.MustCompile(`on|off|optional|optional_no_ca`)`,
used via the unanchored `MatchString`: true iff some alternative occurs
as a substring. -/
def authVerifyClientRegexMatch (s : String) : Bool :=
  listHas "on".data s.data || listHas "off".data s.data ||
    listHas "optional".data s.data || listHas "optional_no_ca".data s.data

/-- `authOCSPRegex = regexp.MustCompile(`on|off|leaf`)`, unanchored. -/
def authOCSPRegexMatch (s : String) : Bool :=
  listHas "on".data s.data || listHas "off".data s.data || listHas "leaf".data s.data

/-- `httpOnlyRegex = regexp.MustCompile(`^http?://`)`: anchored at the
start, with the `p` optional, so it accepts exactly the prefixes
`http://` and `htt://` (note: not `https://`). -/
def httpOnlyRegexMatch (s : String) : Bool :=
  listStarts "http://".data s.data || listStarts "htt://".data s.data

/-- Whether `shared:[^\:]+:[^\:]+` matches starting at the head of the
list: the literal `shared:`, one or more non-colon characters, a colon,
then at least one non-colon character. -/
def sharedCacheAt (l : List Char) : Bool :=
  listStarts "shared:".data l &&
    (let rest := l.drop 7
     let seg := rest.takeWhile (fun c => c != ':')
     !seg.isEmpty &&
       (match rest.drop seg.length with
        | ':' :: c :: _ => c != ':'
        | _ => false))

/-- Whether `shared:[^\:]+:[^\:]+` matches anywhere in the list. -/
def sharedCacheHas : List Char → Bool
  | [] => false
  | b :: bs => sharedCacheAt (b :: bs) || sharedCacheHas bs

/-- `authOCSPCacheRegex = regexp.MustCompile(`off|shared:[^\:]+:[^\:]+`)`,
unanchored. -/
def authOCSPCacheRegexMatch (s : String) : Bool :=
  listHas "off".data s.data || sharedCacheHas s.data

/-- Modelled from the spec: `resolver.AuthSSLCert` (the certificate
bundle returned by the external resolver, absent from this repository's
sources) is opaque certificate material compared by its own structural
equality. -/
structure AuthSSLCert where
  material : String
  deriving DecidableEq, Repr

/-- Modelled from the spec: the certificate bundle's own equality is
structural equality of its material. -/
def AuthSSLCert.Equal (a b : AuthSSLCert) : Bool :=
  a.material == b.material

/-- The `Config` struct of the source: the embedded `resolver.AuthSSLCert`
plus the validated annotation fields. -/
structure Config extends AuthSSLCert where
  VerifyClient : String
  ValidationDepth : Int
  ErrorPage : String
  PassCertToUpstream : Bool
  OCSP : String
  OCSPResponder : String
  OCSPCache : String
  AuthTLSError : String
  deriving DecidableEq, Repr

def defaultAuthTLSDepth : Int := 1

def defaultAuthVerifyClient : String := "on"

def defaultOCSP : String := "off"

def defaultOCSPCache : String := "off"

/-- The field comparisons of `Config.Equal` after the nil checks: the
embedded certificate by its own `Equal`, then every scalar field except
`AuthTLSError`, in source order. -/
def ConfigFieldsEqual (a b : Config) : Bool :=
  a.toAuthSSLCert.Equal b.toAuthSSLCert &&
    a.VerifyClient == b.VerifyClient &&
    a.ValidationDepth == b.ValidationDepth &&
    a.ErrorPage == b.ErrorPage &&
    a.PassCertToUpstream == b.PassCertToUpstream &&
    a.OCSP == b.OCSP &&
    a.OCSPResponder == b.OCSPResponder &&
    a.OCSPCache == b.OCSPCache

/-- `func (assl1 *Config) Equal(assl2 *Config) bool`: nil pointers are
modelled by `none`. Two nils are equal (the `assl1 == assl2` fast path),
a nil and a non-nil are unequal, and two non-nils compare field-wise;
the identical-pointer fast path is subsumed by reflexivity of the
field comparisons. -/
def Config.Equal : Option Config → Option Config → Bool
  | none, none => true
  | some a, some b => ConfigFieldsEqual a b
  | _, _ => false

/-- The error values `Parse` can return: the extraction error of
`parser.GetStringAnnotation` propagated unchanged, `ing_errors`
location-denied errors, and `ing_errors.NewInvalidAnnotationConfiguration`. -/
inductive ParseError where
  | extraction (key : String)
  | locationDenied (reason : String)
  | invalidAnnotationConfiguration (ann reason : String)
  deriving DecidableEq, Repr

deriving instance DecidableEq for Except

/-- True exactly on the location-denied error kind. -/
def ParseError.isLocationDenied : ParseError → Bool
  | .locationDenied _ => true
  | _ => false

/-- The external collaborators of `Parse`, per call site: typed annotation
lookup (`none` models the extraction error), `k8s.ParseNameNS`, and the
resolver's `GetAuthCertificate` (the `Except` messages model the wrapped
error texts). -/
structure ParseEnv where
  stringAnn : String → Option String
  intAnn : String → Option Int
  boolAnn : String → Option Bool
  parseNameNS : String → Except String (String × String)
  getAuthCertificate : String → Except String AuthSSLCert

/-- Step 4 of `Parse`: `config.VerifyClient`, defaulted to `"on"` on
extraction error or regex mismatch. -/
def verifyClientValue : Option String → String
  | some v => if authVerifyClientRegexMatch v then v else defaultAuthVerifyClient
  | none => defaultAuthVerifyClient

/-- Step 5 of `Parse`: `config.ValidationDepth`, defaulted to 1 on
extraction error or a parsed value of exactly zero. -/
def validationDepthValue : Option Int → Int
  | some d => if d == 0 then defaultAuthTLSDepth else d
  | none => defaultAuthTLSDepth

/-- Step 6 of `Parse`: `config.ErrorPage`, empty on extraction error. -/
def errorPageValue : Option String → String
  | some v => v
  | none => ""

/-- Step 7 of `Parse`: `config.PassCertToUpstream`, false on extraction
error. -/
def passCertValue : Option Bool → Bool
  | some b => b
  | none => false

/-- Step 8 of `Parse`: `config.OCSP`, defaulted to `"off"` on extraction
error or regex mismatch. -/
def ocspValue : Option String → String
  | some v => if authOCSPRegexMatch v then v else defaultOCSP
  | none => defaultOCSP

/-- Step 10 of `Parse`: `config.OCSPResponder`, emptied on extraction
error or regex mismatch. -/
def ocspResponderValue : Option String → String
  | some v => if httpOnlyRegexMatch v then v else ""
  | none => ""

/-- Step 11 of `Parse`: `config.OCSPCache`, defaulted to `"off"` on
extraction error or regex mismatch. -/
def ocspCacheValue : Option String → String
  | some v => if authOCSPCacheRegexMatch v then v else defaultOCSPCache
  | none => defaultOCSPCache

/-- The tail of `Parse` after `config.AuthSSLCert = *authCert`: assigns
every remaining field in source order and runs the cross-field OCSP /
VerifyClient check (`strings.EqualFold(config.OCSP, "on") &&
!strings.EqualFold(config.VerifyClient, "on")`) between the `OCSP` and
`OCSPResponder` assignments. -/
def buildConfig (env : ParseEnv) (authCert : AuthSSLCert) : Except ParseError Config :=
  if equalFold (ocspValue (env.stringAnn "auth-tls-ocsp")) "on" &&
      !equalFold (verifyClientValue (env.stringAnn "auth-tls-verify-client")) "on" then
    .error (.invalidAnnotationConfiguration "auth-tls-ocsp"
      "requires auth-tls-verify-client to be set on")
  else
    .ok { toAuthSSLCert := authCert,
          VerifyClient := verifyClientValue (env.stringAnn "auth-tls-verify-client"),
          ValidationDepth := validationDepthValue (env.intAnn "auth-tls-verify-depth"),
          ErrorPage := errorPageValue (env.stringAnn "auth-tls-error-page"),
          PassCertToUpstream := passCertValue (env.boolAnn "auth-tls-pass-certificate-to-upstream"),
          OCSP := ocspValue (env.stringAnn "auth-tls-ocsp"),
          OCSPResponder := ocspResponderValue (env.stringAnn "auth-tls-ocsp-responder"),
          OCSPCache := ocspCacheValue (env.stringAnn "auth-tls-ocsp-cache"),
          AuthTLSError := "" }

/-- `func (a authTLS) Parse(ing *networking.Ingress) (interface{}, error)`:
a missing `auth-tls-secret` annotation propagates the extraction error
unchanged; a `ParseNameNS` failure becomes `NewLocationDenied`; a
resolver failure becomes `LocationDenied` wrapping
`"error obtaining certificate"`; otherwise the remaining fields are
assembled by `buildConfig`. -/
def Parse (env : ParseEnv) : Except ParseError Config :=
  match env.stringAnn "auth-tls-secret" with
  | none => .error (.extraction "auth-tls-secret")
  | some tlsauthsecret =>
    match env.parseNameNS tlsauthsecret with
    | .error e => .error (.locationDenied e)
    | .ok _ =>
      match env.getAuthCertificate tlsauthsecret with
      | .error e => .error (.locationDenied ("error obtaining certificate: " ++ e))
      | .ok authCert => buildConfig env authCert

/-- Destructing a successful `Parse`: the secret annotation was present,
its reference parsed, the resolver succeeded, and the rest of the result
comes from `buildConfig`. -/
theorem parse_ok_elim {env : ParseEnv} {cfg : Config} (h : Parse env = .ok cfg) :
    ∃ s cert, env.stringAnn "auth-tls-secret" = some s ∧
      (∃ p, env.parseNameNS s = .ok p) ∧
      env.getAuthCertificate s = .ok cert ∧
      buildConfig env cert = .ok cfg := by
  unfold Parse at h
  split at h
  · simp at h
  · next s hs =>
    split at h
    · simp at h
    · next p hp =>
      split at h
      · simp at h
      · next cert hc => exact ⟨s, cert, hs, ⟨p, hp⟩, hc, h⟩

/-- Destructing a successful `buildConfig`: the result is the record of
per-field values and the cross-field guard was false. -/
theorem buildConfig_ok_elim {env : ParseEnv} {cert : AuthSSLCert} {cfg : Config}
    (h : buildConfig env cert = .ok cfg) :
    cfg = { toAuthSSLCert := cert,
            VerifyClient := verifyClientValue (env.stringAnn "auth-tls-verify-client"),
            ValidationDepth := validationDepthValue (env.intAnn "auth-tls-verify-depth"),
            ErrorPage := errorPageValue (env.stringAnn "auth-tls-error-page"),
            PassCertToUpstream := passCertValue (env.boolAnn "auth-tls-pass-certificate-to-upstream"),
            OCSP := ocspValue (env.stringAnn "auth-tls-ocsp"),
            OCSPResponder := ocspResponderValue (env.stringAnn "auth-tls-ocsp-responder"),
            OCSPCache := ocspCacheValue (env.stringAnn "auth-tls-ocsp-cache"),
            AuthTLSError := "" } ∧
    (equalFold (ocspValue (env.stringAnn "auth-tls-ocsp")) "on" &&
      !equalFold (verifyClientValue (env.stringAnn "auth-tls-verify-client")) "on") = false := by
  unfold buildConfig at h
  split at h
  · simp at h
  · next hguard =>
    refine ⟨(Except.ok.inj h).symm, ?_⟩
    simpa using hguard

/-- Annotation bag with OCSP `"leaf"` and VerifyClient `"off"`: both pass
their regexes, the cross-field check does not fire, and parsing succeeds. -/
def envC1 : ParseEnv :=
  { stringAnn := fun k =>
      if k = "auth-tls-secret" then some "ns/cert"
      else if k = "auth-tls-verify-client" then some "off"
      else if k = "auth-tls-ocsp" then some "leaf"
      else none,
    intAnn := fun _ => none,
    boolAnn := fun _ => none,
    parseNameNS := fun _ => .ok ("ns", "cert"),
    getAuthCertificate := fun _ => .ok ⟨"PEM"⟩ }

/-- Claim C1 fails as stated: with OCSP `"leaf"` (not case-insensitively
`"off"`) and VerifyClient `"off"` (not case-insensitively `"on"`),
`Parse` still succeeds, because the cross-field check only fires when
OCSP case-insensitively equals `"on"`. -/
theorem c1_counterexample :
    Parse envC1 = .ok { toAuthSSLCert := ⟨"PEM"⟩,
                        VerifyClient := "off",
                        ValidationDepth := 1,
                        ErrorPage := "",
                        PassCertToUpstream := false,
                        OCSP := "leaf",
                        OCSPResponder := "",
                        OCSPCache := "off",
                        AuthTLSError := "" } ∧
    equalFold "leaf" "off" = false ∧ equalFold "off" "on" = false := by
  refine ⟨by decide, by decide, by decide⟩

/-- Claim C1 (amended): on every successful `Parse`, if the returned
configuration's OCSP field case-insensitively equals `"on"` then its
VerifyClient field case-insensitively equals `"on"`. -/
theorem c1_amended (env : ParseEnv) (cfg : Config) (h : Parse env = .ok cfg)
    (hocsp : equalFold cfg.OCSP "on" = true) :
    equalFold cfg.VerifyClient "on" = true := by
  obtain ⟨s, cert, _, _, _, hb⟩ := parse_ok_elim h
  obtain ⟨hcfg, hguard⟩ := buildConfig_ok_elim hb
  subst hcfg
  simp only at hocsp ⊢
  rw [hocsp] at hguard
  simpa using hguard

/-- Annotation bag for the C1 witness: OCSP `"on"`, VerifyClient absent
(defaulting to `"on"`). -/
def envC1w : ParseEnv :=
  { stringAnn := fun k =>
      if k = "auth-tls-secret" then some "ns/cert"
      else if k = "auth-tls-ocsp" then some "on"
      else none,
    intAnn := fun _ => none,
    boolAnn := fun _ => none,
    parseNameNS := fun _ => .ok ("ns", "cert"),
    getAuthCertificate := fun _ => .ok ⟨"PEM"⟩ }

/-- The configuration `Parse envC1w` returns. -/
def cfgC1w : Config :=
  { toAuthSSLCert := ⟨"PEM"⟩,
    VerifyClient := "on",
    ValidationDepth := 1,
    ErrorPage := "",
    PassCertToUpstream := false,
    OCSP := "on",
    OCSPResponder := "",
    OCSPCache := "off",
    AuthTLSError := "" }

/-- Witness for the amended C1 at a concrete successful parse. -/
theorem c1_witness : equalFold cfgC1w.VerifyClient "on" = true :=
  c1_amended envC1w cfgC1w (by decide) (by decide)

/-- Claim C2: whenever the secret reference extracts, parses and resolves
(so both fields reach their final, possibly defaulted, values), and the
defaulted OCSP value case-insensitively equals `"on"` while the defaulted
VerifyClient value does not case-insensitively equal `"on"`, `Parse`
fails with the invalid-annotation-configuration error naming
`auth-tls-ocsp` and the required companion setting. -/
theorem c2_cross_field (env : ParseEnv) (s : String) (p : String × String)
    (cert : AuthSSLCert)
    (hs : env.stringAnn "auth-tls-secret" = some s)
    (hp : env.parseNameNS s = .ok p)
    (hc : env.getAuthCertificate s = .ok cert)
    (hocsp : equalFold (ocspValue (env.stringAnn "auth-tls-ocsp")) "on" = true)
    (hvc : equalFold (verifyClientValue (env.stringAnn "auth-tls-verify-client")) "on" = false) :
    Parse env = .error (.invalidAnnotationConfiguration "auth-tls-ocsp"
      "requires auth-tls-verify-client to be set on") := by
  simp only [Parse, hs, hp, hc, buildConfig, hocsp, hvc]
  simp

/-- Annotation bag with OCSP `"on"` and VerifyClient `"off"`. -/
def envC2 : ParseEnv :=
  { stringAnn := fun k =>
      if k = "auth-tls-secret" then some "ns/cert"
      else if k = "auth-tls-verify-client" then some "off"
      else if k = "auth-tls-ocsp" then some "on"
      else none,
    intAnn := fun _ => none,
    boolAnn := fun _ => none,
    parseNameNS := fun _ => .ok ("ns", "cert"),
    getAuthCertificate := fun _ => .ok ⟨"PEM"⟩ }

/-- Witness for C2 at a concrete bag: OCSP `"on"`, VerifyClient `"off"`. -/
theorem c2_witness :
    Parse envC2 = .error (.invalidAnnotationConfiguration "auth-tls-ocsp"
      "requires auth-tls-verify-client to be set on") :=
  c2_cross_field envC2 "ns/cert" ("ns", "cert") ⟨"PEM"⟩
    (by decide) (by decide) (by decide) (by decide) (by decide)

/-- Environment whose annotation bag has no annotations at all; the other
collaborators fail as well. -/
def envC3 : ParseEnv :=
  { stringAnn := fun _ => none,
    intAnn := fun _ => none,
    boolAnn := fun _ => none,
    parseNameNS := fun _ => .error "bad reference",
    getAuthCertificate := fun _ => .error "no cert" }

/-- Claim C3 fails as stated: with the `auth-tls-secret` annotation
missing, `Parse` returns the extraction error propagated unchanged,
which is not a location-denied error. -/
theorem c3_counterexample :
    Parse envC3 = .error (.extraction "auth-tls-secret") ∧
    (match Parse envC3 with
     | .error e => ParseError.isLocationDenied e
     | .ok _ => true) = false :=
  ⟨by decide, by decide⟩

/-- Claim C3 (amended): a missing `auth-tls-secret` annotation makes
`Parse` fail with the extraction error itself; a reference that does not
parse as namespace/name fails with a location-denied error; a resolver
failure fails with a location-denied error wrapping
`"error obtaining certificate"`. In every case no populated
configuration is returned. -/
theorem c3_amended (env : ParseEnv) :
    (env.stringAnn "auth-tls-secret" = none →
      Parse env = .error (.extraction "auth-tls-secret")) ∧
    (∀ s m, env.stringAnn "auth-tls-secret" = some s → env.parseNameNS s = .error m →
      Parse env = .error (.locationDenied m)) ∧
    (∀ s p m, env.stringAnn "auth-tls-secret" = some s → env.parseNameNS s = .ok p →
      env.getAuthCertificate s = .error m →
      Parse env = .error (.locationDenied ("error obtaining certificate: " ++ m))) := by
  refine ⟨fun hs => ?_, fun s m hs hp => ?_, fun s p m hs hp hc => ?_⟩
  · simp only [Parse, hs]
  · simp only [Parse, hs, hp]
  · simp only [Parse, hs, hp, hc]

/-- Environment whose secret reference resolves to nothing: extraction
succeeds but the resolver fails. -/
def envC3b : ParseEnv :=
  { stringAnn := fun k => if k = "auth-tls-secret" then some "ns/cert" else none,
    intAnn := fun _ => none,
    boolAnn := fun _ => none,
    parseNameNS := fun _ => .ok ("ns", "cert"),
    getAuthCertificate := fun _ => .error "no cert" }

/-- Witness for the amended C3: the missing-annotation case and the
resolver-failure case at concrete environments. -/
theorem c3_witness :
    Parse envC3 = .error (.extraction "auth-tls-secret") ∧
    Parse envC3b = .error (.locationDenied ("error obtaining certificate: " ++ "no cert")) :=
  ⟨(c3_amended envC3).1 rfl,
   (c3_amended envC3b).2.2 "ns/cert" ("ns", "cert") "no cert" (by decide) (by decide) (by decide)⟩

/-- Annotation bag setting `auth-tls-ocsp-responder` to an `https://` URL. -/
def envC4 : ParseEnv :=
  { stringAnn := fun k =>
      if k = "auth-tls-secret" then some "ns/cert"
      else if k = "auth-tls-ocsp-responder" then some "https://ocsp.example.com"
      else none,
    intAnn := fun _ => none,
    boolAnn := fun _ => none,
    parseNameNS := fun _ => .ok ("ns", "cert"),
    getAuthCertificate := fun _ => .ok ⟨"PEM"⟩ }

/-- Claim C4, evaluated at the failing input: the code's regex
`^http?://` (optional `p`) rejects the `https://`-prefixed responder URL,
forcing `OCSPResponder` to the empty string, while it accepts the
nonsense prefix `htt://` — evidence that the regex is a slip for
`^https?://`. -/
theorem c4_code_eval :
    Parse envC4 = .ok { toAuthSSLCert := ⟨"PEM"⟩,
                        VerifyClient := "on",
                        ValidationDepth := 1,
                        ErrorPage := "",
                        PassCertToUpstream := false,
                        OCSP := "off",
                        OCSPResponder := "",
                        OCSPCache := "off",
                        AuthTLSError := "" } ∧
    httpOnlyRegexMatch "https://ocsp.example.com" = false ∧
    httpOnlyRegexMatch "http://ocsp.example.com" = true ∧
    httpOnlyRegexMatch "htt://x" = true := by
  refine ⟨by decide, by decide, by decide, by decide⟩

/-- Annotation bag whose `auth-tls-verify-client` value `"monkey"` is not
in the enumerated set but contains `"on"` as a substring. -/
def envC5 : ParseEnv :=
  { stringAnn := fun k =>
      if k = "auth-tls-secret" then some "ns/cert"
      else if k = "auth-tls-verify-client" then some "monkey"
      else none,
    intAnn := fun _ => none,
    boolAnn := fun _ => none,
    parseNameNS := fun _ => .ok ("ns", "cert"),
    getAuthCertificate := fun _ => .ok ⟨"PEM"⟩ }

/-- The configuration `Parse envC5` returns. -/
def cfgC5 : Config :=
  { toAuthSSLCert := ⟨"PEM"⟩,
    VerifyClient := "monkey",
    ValidationDepth := 1,
    ErrorPage := "",
    PassCertToUpstream := false,
    OCSP := "off",
    OCSPResponder := "",
    OCSPCache := "off",
    AuthTLSError := "" }

/-- Claim C5 fails as stated: `"monkey"` is not a member of
{on, off, optional, optional_no_ca}, yet the unanchored regex matches it
(it contains `"on"`), so `Parse` keeps `VerifyClient = "monkey"` instead
of defaulting to `"on"`. -/
theorem c5_counterexample :
    Parse envC5 = .ok cfgC5 ∧ cfgC5.VerifyClient = "monkey" ∧
    ("monkey" : String) ≠ "on" ∧ ("monkey" : String) ≠ "off" ∧
    ("monkey" : String) ≠ "optional" ∧ ("monkey" : String) ≠ "optional_no_ca" := by
  refine ⟨by decide, by decide, by decide, by decide, by decide, by decide⟩

/-- Claim C5 (amended): on every successful `Parse`, `VerifyClient` is
the annotation value when the unanchored regex
`on|off|optional|optional_no_ca` matches it (i.e. when some alternative
occurs as a substring — every member of the set is kept, but so is any
superstring), and `"on"` when the annotation is absent, extraction
fails, or the regex does not match. -/
theorem c5_amended (env : ParseEnv) (cfg : Config) (h : Parse env = .ok cfg) :
    (env.stringAnn "auth-tls-verify-client" = none → cfg.VerifyClient = "on") ∧
    (∀ v, env.stringAnn "auth-tls-verify-client" = some v →
      (authVerifyClientRegexMatch v = true → cfg.VerifyClient = v) ∧
      (authVerifyClientRegexMatch v = false → cfg.VerifyClient = "on")) := by
  obtain ⟨s, cert, _, _, _, hb⟩ := parse_ok_elim h
  obtain ⟨hcfg, _⟩ := buildConfig_ok_elim hb
  subst hcfg
  refine ⟨fun hv => ?_, fun v hv => ⟨fun hm => ?_, fun hm => ?_⟩⟩
  · simp [verifyClientValue, hv, defaultAuthVerifyClient]
  · simp [verifyClientValue, hv, hm]
  · simp [verifyClientValue, hv, hm, defaultAuthVerifyClient]

/-- Witness for the amended C5: the out-of-set value `"monkey"` is kept. -/
theorem c5_witness : cfgC5.VerifyClient = "monkey" :=
  ((c5_amended envC5 cfgC5 (by decide)).2 "monkey" (by decide)).1 (by decide)

/-- Annotation bag whose `auth-tls-ocsp` value `"salmon"` is not in
{on, off, leaf} but contains `"on"` as a substring. -/
def envC6 : ParseEnv :=
  { stringAnn := fun k =>
      if k = "auth-tls-secret" then some "ns/cert"
      else if k = "auth-tls-ocsp" then some "salmon"
      else none,
    intAnn := fun _ => none,
    boolAnn := fun _ => none,
    parseNameNS := fun _ => .ok ("ns", "cert"),
    getAuthCertificate := fun _ => .ok ⟨"PEM"⟩ }

/-- The configuration `Parse envC6` returns. -/
def cfgC6 : Config :=
  { toAuthSSLCert := ⟨"PEM"⟩,
    VerifyClient := "on",
    ValidationDepth := 1,
    ErrorPage := "",
    PassCertToUpstream := false,
    OCSP := "salmon",
    OCSPResponder := "",
    OCSPCache := "off",
    AuthTLSError := "" }

/-- Claim C6 fails as stated: `"salmon"` is not a member of
{on, off, leaf}, yet the unanchored regex matches it (it contains
`"on"`), so `Parse` keeps `OCSP = "salmon"` instead of defaulting to
`"off"`. -/
theorem c6_counterexample :
    Parse envC6 = .ok cfgC6 ∧ cfgC6.OCSP = "salmon" ∧
    ("salmon" : String) ≠ "on" ∧ ("salmon" : String) ≠ "off" ∧
    ("salmon" : String) ≠ "leaf" := by
  refine ⟨by decide, by decide, by decide, by decide, by decide⟩

/-- Claim C6 (amended): on every successful `Parse`, `OCSP` is the
annotation value when the unanchored regex `on|off|leaf` matches it
(i.e. when `"on"`, `"off"` or `"leaf"` occurs as a substring — every
member of the set is kept, but so is any superstring), and `"off"` when
the annotation is absent, extraction fails, or the regex does not
match. -/
theorem c6_amended (env : ParseEnv) (cfg : Config) (h : Parse env = .ok cfg) :
    (env.stringAnn "auth-tls-ocsp" = none → cfg.OCSP = "off") ∧
    (∀ v, env.stringAnn "auth-tls-ocsp" = some v →
      (authOCSPRegexMatch v = true → cfg.OCSP = v) ∧
      (authOCSPRegexMatch v = false → cfg.OCSP = "off")) := by
  obtain ⟨s, cert, _, _, _, hb⟩ := parse_ok_elim h
  obtain ⟨hcfg, _⟩ := buildConfig_ok_elim hb
  subst hcfg
  refine ⟨fun hv => ?_, fun v hv => ⟨fun hm => ?_, fun hm => ?_⟩⟩
  · simp [ocspValue, hv, defaultOCSP]
  · simp [ocspValue, hv, hm]
  · simp [ocspValue, hv, hm, defaultOCSP]

/-- Witness for the amended C6: the out-of-set value `"salmon"` is kept. -/
theorem c6_witness : cfgC6.OCSP = "salmon" :=
  ((c6_amended envC6 cfgC6 (by decide)).2 "salmon" (by decide)).1 (by decide)

/-- Claim C7: on every successful `Parse`, `ValidationDepth` is 1 when
the annotation is absent, extraction fails, or the parsed integer is
exactly zero, and otherwise is the parsed integer unchanged — including
every negative integer. -/
theorem c7_validation_depth (env : ParseEnv) (cfg : Config) (h : Parse env = .ok cfg) :
    (env.intAnn "auth-tls-verify-depth" = none → cfg.ValidationDepth = 1) ∧
    (env.intAnn "auth-tls-verify-depth" = some 0 → cfg.ValidationDepth = 1) ∧
    (∀ d, env.intAnn "auth-tls-verify-depth" = some d → d ≠ 0 → cfg.ValidationDepth = d) := by
  obtain ⟨s, cert, _, _, _, hb⟩ := parse_ok_elim h
  obtain ⟨hcfg, _⟩ := buildConfig_ok_elim hb
  subst hcfg
  refine ⟨fun hv => ?_, fun hv => ?_, fun d hv hd => ?_⟩
  · simp [validationDepthValue, hv, defaultAuthTLSDepth]
  · simp [validationDepthValue, hv, defaultAuthTLSDepth]
  · simp [validationDepthValue, hv, hd, defaultAuthTLSDepth]

/-- Annotation bag with a negative `auth-tls-verify-depth`. -/
def envC7 : ParseEnv :=
  { stringAnn := fun k => if k = "auth-tls-secret" then some "ns/cert" else none,
    intAnn := fun k => if k = "auth-tls-verify-depth" then some (-3) else none,
    boolAnn := fun _ => none,
    parseNameNS := fun _ => .ok ("ns", "cert"),
    getAuthCertificate := fun _ => .ok ⟨"PEM"⟩ }

/-- The configuration `Parse envC7` returns. -/
def cfgC7 : Config :=
  { toAuthSSLCert := ⟨"PEM"⟩,
    VerifyClient := "on",
    ValidationDepth := -3,
    ErrorPage := "",
    PassCertToUpstream := false,
    OCSP := "off",
    OCSPResponder := "",
    OCSPCache := "off",
    AuthTLSError := "" }

/-- Witness for C7: the negative depth -3 is accepted as-is. -/
theorem c7_witness : cfgC7.ValidationDepth = -3 :=
  (c7_validation_depth envC7 cfgC7 (by decide)).2.2 (-3) (by decide) (by decide)

/-- Claim C10: on every successful `Parse`, `ValidationDepth` is never
zero: it is either the default 1 or a nonzero parsed annotation value. -/
theorem c10_depth_nonzero (env : ParseEnv) (cfg : Config) (h : Parse env = .ok cfg) :
    cfg.ValidationDepth ≠ 0 ∧
    (cfg.ValidationDepth = 1 ∨
      ∃ d, env.intAnn "auth-tls-verify-depth" = some d ∧ d ≠ 0 ∧ cfg.ValidationDepth = d) := by
  obtain ⟨s, cert, _, _, _, hb⟩ := parse_ok_elim h
  obtain ⟨hcfg, _⟩ := buildConfig_ok_elim hb
  subst hcfg
  rcases hv : env.intAnn "auth-tls-verify-depth" with _ | d
  · constructor
    · simp [validationDepthValue, hv, defaultAuthTLSDepth]
    · exact .inl (by simp [validationDepthValue, hv, defaultAuthTLSDepth])
  · by_cases hd : d = 0
    · subst hd
      constructor
      · simp [validationDepthValue, hv, defaultAuthTLSDepth]
      · exact .inl (by simp [validationDepthValue, hv, defaultAuthTLSDepth])
    · constructor
      · simp [validationDepthValue, hv, hd]
      · exact .inr ⟨d, rfl, hd, by simp [validationDepthValue, hv, hd]⟩

/-- Annotation bag with no depth annotation at all. -/
def envC10 : ParseEnv :=
  { stringAnn := fun k => if k = "auth-tls-secret" then some "ns/cert" else none,
    intAnn := fun _ => none,
    boolAnn := fun _ => none,
    parseNameNS := fun _ => .ok ("ns", "cert"),
    getAuthCertificate := fun _ => .ok ⟨"PEM"⟩ }

/-- The configuration `Parse envC10` returns. -/
def cfgC10 : Config :=
  { toAuthSSLCert := ⟨"PEM"⟩,
    VerifyClient := "on",
    ValidationDepth := 1,
    ErrorPage := "",
    PassCertToUpstream := false,
    OCSP := "off",
    OCSPResponder := "",
    OCSPCache := "off",
    AuthTLSError := "" }

/-- Witness for C10 at a concrete successful parse. -/
theorem c10_witness : cfgC10.ValidationDepth ≠ 0 :=
  (c10_depth_nonzero envC10 cfgC10 (by decide)).1

/-- `ConfigFieldsEqual` holds exactly when every compared field is equal
(the certificate bundle by its own `Equal`). -/
theorem fieldsEqual_iff (x y : Config) :
    ConfigFieldsEqual x y = true ↔
      (x.toAuthSSLCert.Equal y.toAuthSSLCert = true ∧ x.VerifyClient = y.VerifyClient ∧
        x.ValidationDepth = y.ValidationDepth ∧ x.ErrorPage = y.ErrorPage ∧
        x.PassCertToUpstream = y.PassCertToUpstream ∧ x.OCSP = y.OCSP ∧
        x.OCSPResponder = y.OCSPResponder ∧ x.OCSPCache = y.OCSPCache) := by
  simp [ConfigFieldsEqual, and_assoc]

/-- The field comparisons are reflexive. -/
theorem fieldsEqual_refl (x : Config) : ConfigFieldsEqual x x = true :=
  (fieldsEqual_iff x x).mpr ⟨by simp [AuthSSLCert.Equal], rfl, rfl, rfl, rfl, rfl, rfl, rfl⟩

/-- The field comparisons are symmetric. -/
theorem fieldsEqual_symm {x y : Config} (h : ConfigFieldsEqual x y = true) :
    ConfigFieldsEqual y x = true := by
  obtain ⟨h1, h2, h3, h4, h5, h6, h7, h8⟩ := (fieldsEqual_iff x y).mp h
  refine (fieldsEqual_iff y x).mpr
    ⟨?_, h2.symm, h3.symm, h4.symm, h5.symm, h6.symm, h7.symm, h8.symm⟩
  simp only [AuthSSLCert.Equal, beq_iff_eq] at h1 ⊢
  exact h1.symm

/-- The field comparisons commute as Bool values. -/
theorem fieldsEqual_comm (x y : Config) : ConfigFieldsEqual x y = ConfigFieldsEqual y x := by
  cases hxy : ConfigFieldsEqual x y with
  | true => exact (fieldsEqual_symm hxy).symm
  | false =>
    cases hyx : ConfigFieldsEqual y x with
    | true => exact absurd (fieldsEqual_symm hyx) (by simp [hxy])
    | false => rfl

/-- Claim C8: `Config.Equal` is a total, reflexive, symmetric relation
over {absent, every configuration}: two absent values are equal, an
absent and a present value are unequal in both orders, and two present
values are equal iff every data-model field (the certificate bundle by
its own equality, VerifyClient, ValidationDepth, ErrorPage,
PassCertToUpstream, OCSP, OCSPResponder, OCSPCache) is equal. -/
theorem c8_equal_relation :
    (Config.Equal none none = true) ∧
    (∀ c : Config, Config.Equal (some c) none = false ∧ Config.Equal none (some c) = false) ∧
    (∀ a : Option Config, Config.Equal a a = true) ∧
    (∀ a b : Option Config, Config.Equal a b = Config.Equal b a) ∧
    (∀ x y : Config, Config.Equal (some x) (some y) = true ↔
      (x.toAuthSSLCert.Equal y.toAuthSSLCert = true ∧ x.VerifyClient = y.VerifyClient ∧
        x.ValidationDepth = y.ValidationDepth ∧ x.ErrorPage = y.ErrorPage ∧
        x.PassCertToUpstream = y.PassCertToUpstream ∧ x.OCSP = y.OCSP ∧
        x.OCSPResponder = y.OCSPResponder ∧ x.OCSPCache = y.OCSPCache)) := by
  refine ⟨rfl, fun c => ⟨rfl, rfl⟩, fun a => ?_, fun a b => ?_, fun x y => ?_⟩
  · cases a with
    | none => rfl
    | some c => exact fieldsEqual_refl c
  · cases a <;> cases b <;> first | rfl | exact fieldsEqual_comm _ _
  · exact fieldsEqual_iff x y

/-- A concrete configuration used by the C8 and C9 witnesses. -/
def cfgC8 : Config :=
  { toAuthSSLCert := ⟨"PEM"⟩,
    VerifyClient := "optional",
    ValidationDepth := 2,
    ErrorPage := "https://err",
    PassCertToUpstream := true,
    OCSP := "off",
    OCSPResponder := "",
    OCSPCache := "off",
    AuthTLSError := "" }

/-- Witness for C8 at a concrete configuration. -/
theorem c8_witness : Config.Equal (some cfgC8) (some cfgC8) = true :=
  c8_equal_relation.2.2.1 (some cfgC8)

/-- Claim C9: `Config.Equal` ignores the `AuthTLSError` field — two
present configurations agreeing on every other field are equal no
matter their `AuthTLSError` values. -/
theorem c9_ignores_auth_tls_error (x : Config) (e1 e2 : String) :
    Config.Equal (some { x with AuthTLSError := e1 })
      (some { x with AuthTLSError := e2 }) = true :=
  (fieldsEqual_iff _ _).mpr ⟨by simp [AuthSSLCert.Equal], rfl, rfl, rfl, rfl, rfl, rfl, rfl⟩

/-- Witness for C9: two configurations differing only in `AuthTLSError`. -/
theorem c9_witness :
    Config.Equal (some { cfgC8 with AuthTLSError := "boom" })
      (some { cfgC8 with AuthTLSError := "" }) = true :=
  c9_ignores_auth_tls_error cfgC8 "boom" ""

end IngressAuthTLS
